import Mathlib

/-!
Verification of the GPAI assessment questionnaire (streamlit_app.py).

The script is a linear walk: provider context, a specialization gate,
a provider gate with a substantial-modification sub-check, preliminary
scoring, baseline-obligation scoring, systemic-risk classification,
aggregation, and report generation with a CSV export.  Every widget
answer is a string drawn from a declared option list; Python dict
lookups (KeyError) and `int` parses (ValueError) are modeled with
`Option`, `none` standing for an uncaught exception that aborts the run.
-/

namespace GPAI

/-- One answer string per widget of the script, in source order.
Radio widgets yield one of their declared options; text widgets yield
arbitrary strings. -/
structure Responses where
  provider_type : String
  provider_context_justification : String
  specialized_radio : String
  developed_internally : String
  mod_param_change : String
  mod_purpose_change : String
  mod_data_change : String
  mod_integration_change : String
  prelim_param_scale : String
  prelim_training_scope : String
  prelim_broad_ability : String
  prelim_generative_cap : String
  obligation_tech_doc : String
  obligation_instructions : String
  obligation_copyright : String
  obligation_data_summary : String
  sys_flop_threshold : String
  sys_sota_advancement : String
  sys_mass_deployment : String
  sys_harmful_scaffolding : String
  borderline_sysrisk : String
  model_name : String
  provider_name : String
  user_remediation : String
deriving DecidableEq, Repr

/-- Options of the Step 1 specialization radio (line 71). -/
def specialized_options : List String :=
  ["Yes (Specialized/Narrow)", "No (Potentially General-Purpose)"]

/-- Options of the Step 2 provider radio (line 87). -/
def developed_options : List String := ["Internally Developed", "Third Party"]

/-- Options of the Step 3 parameter-scale question (line 142). -/
def param_scale_options : List String := ["< 1B", "1B–10B", "> 10B"]

/-- Shared options of the three other Step 3 questions (lines 146, 150, 154). -/
def no_partly_yes_options : List String := ["No", "Partly", "Yes"]

/-- Options of the Step 4 technical-documentation question (line 202). -/
def tech_doc_options : List String :=
  ["Not in place (0)", "Partially in place (1)", "Fully in place (2)"]

/-- Options of the Step 4 instructions question (line 206). -/
def instructions_options : List String :=
  ["0 - None", "1 - Some partial instructions", "2 - Comprehensive guidelines"]

/-- Options of the Step 4 copyright question (line 210). -/
def copyright_options : List String :=
  ["0 - None", "1 - Partial policy", "2 - Fully documented policy"]

/-- Options of the Step 4 data-summary question (line 214). -/
def data_summary_options : List String :=
  ["0 - Not published", "1 - Partially available", "2 - Comprehensive summary"]

/-- Shared options of the four Step 5 binary questions (lines 243-260). -/
def yes_no_options : List String := ["No", "Yes"]

/-- Options of the Step 5 manual-override radio (line 282). -/
def borderline_options : List String :=
  ["Yes - High Impact/Systemic", "No - Not Systemic"]

/-- `param_scale_score_map` (line 159); a Python dict, so lookup of an
undeclared key is a KeyError, modeled as `none`. -/
def param_scale_score_map (s : String) : Option Nat :=
  if s = "< 1B" then some 0
  else if s = "1B–10B" then some 1
  else if s = "> 10B" then some 2
  else none

/-- `yes_partly_no_map` (line 160). -/
def yes_partly_no_map (s : String) : Option Nat :=
  if s = "No" then some 0
  else if s = "Partly" then some 1
  else if s = "Yes" then some 2
  else none

/-- `yes_no_map` (line 264). -/
def yes_no_map (s : String) : Option Nat :=
  if s = "No" then some 0
  else if s = "Yes" then some 1
  else none

/-- `substantial_mod` (lines 109-113): starts `False`, set `True` when any
of the four sub-question answers equals `"Yes"`. -/
def substantial_mod (r : Responses) : Bool :=
  (r.mod_param_change == "Yes") || (r.mod_purpose_change == "Yes") ||
    (r.mod_data_change == "Yes") || (r.mod_integration_change == "Yes")

/-- `prelim_score` (lines 158-171): the parameter-scale answer scored by
`param_scale_score_map`, the other three by `yes_partly_no_map`, summed in
loop order.  A lookup failure aborts the run (`none`). -/
def prelim_score (r : Responses) : Option Nat := do
  let a ← param_scale_score_map r.prelim_param_scale
  let b ← yes_partly_no_map r.prelim_training_scope
  let c ← yes_partly_no_map r.prelim_broad_ability
  let d ← yes_partly_no_map r.prelim_generative_cap
  pure (a + b + c + d)

/-- Python `str.split(sep)` for a single-character separator. -/
def splitOnChar (sep : Char) : List Char → List (List Char)
  | [] => [[]]
  | c :: rest =>
    if c = sep then [] :: splitOnChar sep rest
    else
      match splitOnChar sep rest with
      | [] => [[c]]
      | f :: fs => (c :: f) :: fs

/-- The value of a nonempty all-digit character list; `none` otherwise. -/
def decimalDigits (l : List Char) : Option Nat :=
  if l ≠ [] ∧ l.all Char.isDigit then
    some (l.foldl (fun n c => 10 * n + (c.toNat - 48)) 0)
  else none

/-- Python `int(s)` on a string: surrounding whitespace stripped, an
optional sign, then decimal digits; ValueError (`none`) otherwise. -/
def pyInt (l : List Char) : Option Int :=
  let t := ((l.dropWhile Char.isWhitespace).reverse.dropWhile
    Char.isWhitespace).reverse
  match t with
  | '-' :: ds => (decimalDigits ds).map (fun n => -(n : Int))
  | '+' :: ds => (decimalDigits ds).map (fun n => (n : Int))
  | ds => (decimalDigits ds).map (fun n => (n : Int))

/-- The Step 4 label parse (line 225):
`int(user_choice.split("(")[-1].split(")")[0])`. -/
def extract_numeric (label : String) : Option Int :=
  pyInt ((splitOnChar ')' ((splitOnChar '(' label.data).getLastD [])).headD [])

/-- `baseline_score` (lines 218-226): values extracted from the four chosen
labels in loop order and summed; a ValueError aborts the run. -/
def baseline_score (r : Responses) : Option Int := do
  let a ← extract_numeric r.obligation_tech_doc
  let b ← extract_numeric r.obligation_instructions
  let c ← extract_numeric r.obligation_copyright
  let d ← extract_numeric r.obligation_data_summary
  pure (a + b + c + d)

/-- `systemic_score` (lines 262-269): `yes_no_map` of the four Step 5
answers, summed in loop order. -/
def systemic_score (r : Responses) : Option Nat := do
  let a ← yes_no_map r.sys_flop_threshold
  let b ← yes_no_map r.sys_sota_advancement
  let c ← yes_no_map r.sys_mass_deployment
  let d ← yes_no_map r.sys_harmful_scaffolding
  pure (a + b + c + d)

/-- Whether the manual-override radio (lines 280-284) is presented: only in
the `elif systemic_score > 1` branch, i.e. not when the flop-threshold or
state-of-the-art answer is `"Yes"`. -/
def manual_override_presented (r : Responses) : Option Bool :=
  (systemic_score r).map (fun n =>
    !(r.sys_flop_threshold == "Yes" || r.sys_sota_advancement == "Yes") &&
      decide (1 < n))

/-- `systemic_classification` (lines 272-286): `"Yes"` when the
flop-threshold or state-of-the-art answer is `"Yes"`; otherwise, when
`systemic_score > 1`, decided by the manual-override answer alone;
otherwise `"No"`. -/
def systemic_classification (r : Responses) : Option String :=
  (systemic_score r).map (fun n =>
    if r.sys_flop_threshold = "Yes" ∨ r.sys_sota_advancement = "Yes" then "Yes"
    else if 1 < n then
      if r.borderline_sysrisk = "Yes - High Impact/Systemic" then "Yes" else "No"
    else "No")

/-- The compliant outcome string (line 311). -/
def compliant_str : String :=
  "Compliant or Mostly Compliant with Baseline GPAI Obligations"

/-- The provisional outcome string (line 313). -/
def provisional_str : String := "Provisionally Compliant (Some Gaps)"

/-- The non-compliant outcome string (line 315). -/
def noncompliant_str : String :=
  "Non-Compliant / High Risk (Insufficient Baseline) - Remediation Needed"

/-- `overall_score = prelim_score + baseline_score` (line 295). -/
def overall_score (p : Nat) (b : Int) : Int := (p : Int) + b

/-- `compliance_status` (lines 310-315). -/
def compliance_status (o : Int) : String :=
  if 12 ≤ o then compliant_str
  else if 8 ≤ o then provisional_str
  else noncompliant_str

/-- Whether the remediation text area is shown (line 319): exactly when the
status is provisional or non-compliant. -/
def remediation_collected (status : String) : Bool :=
  status == provisional_str || status == noncompliant_str

/-- A Python value stored in `report_data`: the report mixes strings and
ints. -/
inductive PyVal where
  | s (v : String)
  | i (v : Int)
deriving DecidableEq, Repr

/-- `report_data` (lines 339-362) in insertion order: the base dict, then
the Step 3, Step 4 and Step 5 responses, then the two name fields. -/
def report_data (r : Responses) (p : Nat) (b : Int)
    (sysClass status : String) : List (String × PyVal) :=
  [("Provider Type (Recital 109)", PyVal.s r.provider_type),
   ("Provider Justification", PyVal.s r.provider_context_justification),
   ("Specialized Model Step1", PyVal.s r.specialized_radio),
   ("Preliminary Score", PyVal.i (p : Int)),
   ("Baseline Score", PyVal.i b),
   ("Systemic Risk? (Article 51)", PyVal.s sysClass),
   ("Overall Compliance Status", PyVal.s status),
   ("Step3_param_scale", PyVal.s r.prelim_param_scale),
   ("Step3_training_scope", PyVal.s r.prelim_training_scope),
   ("Step3_broad_ability", PyVal.s r.prelim_broad_ability),
   ("Step3_generative_cap", PyVal.s r.prelim_generative_cap),
   ("Step4_tech_doc", PyVal.s r.obligation_tech_doc),
   ("Step4_instructions", PyVal.s r.obligation_instructions),
   ("Step4_copyright", PyVal.s r.obligation_copyright),
   ("Step4_data_summary", PyVal.s r.obligation_data_summary),
   ("Step5_flop_threshold", PyVal.s r.sys_flop_threshold),
   ("Step5_sota_advancement", PyVal.s r.sys_sota_advancement),
   ("Step5_mass_deployment", PyVal.s r.sys_mass_deployment),
   ("Step5_harmful_scaffolding", PyVal.s r.sys_harmful_scaffolding),
   ("Model Name", PyVal.s r.model_name),
   ("Provider Name", PyVal.s r.provider_name)]

/-- How a run of the script ends: one of the three `st.stop()` exits, or
the report page.  `none` at the `Option Outcome` level stands for an
uncaught Python exception. -/
inductive Outcome where
  | outOfScope
  | notProvider
  | belowThreshold
  | report (fields : List (String × PyVal))
deriving DecidableEq, Repr

/-- Steps 4-7 (lines 187-377), entered with the preliminary score. -/
def run_step4_onward (r : Responses) (p : Nat) : Option Outcome := do
  let b ← baseline_score r
  let sc ← systemic_classification r
  let status := compliance_status (overall_score p b)
  pure (Outcome.report (report_data r p b sc status))

/-- Steps 3 onward (lines 131-377): preliminary scoring, then the
below-threshold exit (line 174) or the rest of the script. -/
def run_step3_onward (r : Responses) : Option Outcome := do
  let p ← prelim_score r
  if p < 3 then pure Outcome.belowThreshold
  else run_step4_onward r p

/-- Steps 2 onward (lines 85-377): the third-party sub-check with the
not-provider exit (line 120), then the rest of the script. -/
def run_step2_onward (r : Responses) : Option Outcome :=
  if r.developed_internally = "Third Party" ∧ substantial_mod r = false then
    some Outcome.notProvider
  else run_step3_onward r

/-- The whole script: the specialization gate (lines 77-79) and the rest. -/
def runApp (r : Responses) : Option Outcome :=
  if r.specialized_radio = "Yes (Specialized/Narrow)" then
    some Outcome.outOfScope
  else run_step2_onward r

/-- Lines 295-315 as a function of the response set: the overall score and
compliance status the script computes when it reaches Step 6. -/
def aggregate (r : Responses) : Option (Int × String) := do
  let p ← prelim_score r
  let b ← baseline_score r
  pure (overall_score p b, compliance_status (overall_score p b))

/-- A sample full response set, used to instantiate theorems at concrete
inputs. -/
def sample : Responses where
  provider_type := "Large commercial provider"
  provider_context_justification := "context justification text"
  specialized_radio := "No (Potentially General-Purpose)"
  developed_internally := "Internally Developed"
  mod_param_change := "No"
  mod_purpose_change := "No"
  mod_data_change := "No"
  mod_integration_change := "No"
  prelim_param_scale := "> 10B"
  prelim_training_scope := "Yes"
  prelim_broad_ability := "Yes"
  prelim_generative_cap := "Yes"
  obligation_tech_doc := "Fully in place (2)"
  obligation_instructions := "2 - Comprehensive guidelines"
  obligation_copyright := "2 - Fully documented policy"
  obligation_data_summary := "2 - Comprehensive summary"
  sys_flop_threshold := "No"
  sys_sota_advancement := "No"
  sys_mass_deployment := "Yes"
  sys_harmful_scaffolding := "No"
  borderline_sysrisk := "No - Not Systemic"
  model_name := "model-m"
  provider_name := "provider-p"
  user_remediation := "remediation narrative text"

/-! ### The export step (lines 365-375)

`pd.DataFrame([report_data]).to_csv(buffer, index=False)` serializes the
one-row frame with the Python `csv` writer's minimal quoting: a field is
quoted, with inner quotes doubled, exactly when it holds the delimiter, a
quote, or a line-break character; rows are joined by the line terminator,
`"\n"` on the deployment platform.  Ints are rendered by `str`. -/

/-- A character that forces CSV quoting: delimiter, quote, or line break. -/
def isSpecial (c : Char) : Bool :=
  c = ',' || c = '"' || c = '\n' || c = '\r'

/-- Double every quote character, as the CSV writer does inside a quoted
field. -/
def escQuotes : List Char → List Char
  | [] => []
  | c :: l => if c = '"' then '"' :: '"' :: escQuotes l else c :: escQuotes l

/-- Minimal-quoting CSV rendering of one field. -/
def encField (s : String) : List Char :=
  if s.data.any isSpecial then '"' :: (escQuotes s.data ++ ['"']) else s.data

/-- Join rendered fields with a separator character. -/
def joinSep (sep : Char) : List (List Char) → List Char
  | [] => []
  | [f] => f
  | f :: g :: fs => f ++ sep :: joinSep sep (g :: fs)

/-- One CSV row of the given fields. -/
def encRow (fs : List String) : List Char := joinSep ',' (fs.map encField)

/-- `str` of a report value, as the CSV writer renders cells. -/
def pyValStr : PyVal → String
  | PyVal.s v => v
  | PyVal.i v => toString v

/-- The exported text: header row of the report keys, then the single data
row of the report values, each row ended by the line terminator. -/
def export_csv (rep : List (String × PyVal)) : String :=
  String.mk (encRow (rep.map Prod.fst) ++
    '\n' :: (encRow (rep.map (fun kv => pyValStr kv.2)) ++ ['\n']))

/-! ### A CSV reader, to state the export round-trip -/

/-- Scan an unquoted field: everything up to a delimiter or row end. -/
def parseRaw : List Char → List Char × List Char
  | [] => ([], [])
  | c :: rest =>
    if c = ',' ∨ c = '\n' then ([], c :: rest)
    else
      let p := parseRaw rest
      (c :: p.1, p.2)

/-- Scan the inside of a quoted field: a doubled quote is a literal quote,
a single quote closes the field. -/
def scanQuoted : List Char → List Char × List Char
  | [] => ([], [])
  | c :: rest =>
    if c = '"' then
      match rest with
      | [] => ([], [])
      | c2 :: rest2 =>
        if c2 = '"' then
          let p := scanQuoted rest2
          ('"' :: p.1, p.2)
        else ([], c2 :: rest2)
    else
      let p := scanQuoted rest
      (c :: p.1, p.2)

/-- Scan one field, quoted or not. -/
def parseField (cs : List Char) : List Char × List Char :=
  match cs with
  | [] => parseRaw []
  | c :: rest => if c = '"' then scanQuoted rest else parseRaw (c :: rest)

/-- Scan one row: fields separated by delimiters, ended by a line break or
the end of input.  Fuel bounds the number of fields. -/
def parseRowAux : Nat → List Char → List String × List Char
  | 0, cs => ([], cs)
  | fuel + 1, cs =>
    let fld := String.mk (parseField cs).1
    match (parseField cs).2 with
    | [] => ([fld], [])
    | c :: r2 =>
      if c = ',' then
        let p := parseRowAux fuel r2
        (fld :: p.1, p.2)
      else if c = '\n' then ([fld], r2)
      else ([fld], c :: r2)

/-- Scan one row, with enough fuel for any row of the input. -/
def parseRow (cs : List Char) : List String × List Char :=
  parseRowAux (cs.length + 1) cs

/-- Scan the rows of the input.  Fuel bounds the number of rows. -/
def parseRowsAux : Nat → List Char → List (List String)
  | 0, _ => []
  | _ + 1, [] => []
  | fuel + 1, c :: cs =>
    let p := parseRow (c :: cs)
    p.1 :: parseRowsAux fuel p.2

/-- Parse a CSV text into its rows of fields. -/
def parseCSV (s : String) : List (List String) :=
  parseRowsAux s.data.length s.data

/-! ### The spec's description of the report (for claim C3)

Modelled from the spec: §3 "a flat record merging provider identity fields,
all classifications, all tallies, and all raw per-question responses" and
§4 step 7 "plus free-text identity fields (model name, provider name,
context justification, optional remediation narrative)". -/

/-- The spec's completeness requirement on an assembled report, for a run
with preliminary score `p`, baseline score `b`, systemic score `n`,
systemic classification `sysClass` and compliance status `status`: every
tally, classification, raw response and identity field occurs among the
report's values. -/
def spec_report_complete (r : Responses) (p : Nat) (b : Int) (n : Nat)
    (sysClass status : String) : Prop :=
  let vals := (report_data r p b sysClass status).map Prod.snd
  PyVal.i (p : Int) ∈ vals ∧ PyVal.i b ∈ vals ∧
  PyVal.i (n : Int) ∈ vals ∧ PyVal.i (overall_score p b) ∈ vals ∧
  PyVal.s sysClass ∈ vals ∧ PyVal.s status ∈ vals ∧
  PyVal.s r.specialized_radio ∈ vals ∧
  PyVal.s r.provider_type ∈ vals ∧
  PyVal.s r.developed_internally ∈ vals ∧
  (r.developed_internally = "Third Party" →
    PyVal.s r.mod_param_change ∈ vals ∧ PyVal.s r.mod_purpose_change ∈ vals ∧
    PyVal.s r.mod_data_change ∈ vals ∧ PyVal.s r.mod_integration_change ∈ vals) ∧
  PyVal.s r.prelim_param_scale ∈ vals ∧ PyVal.s r.prelim_training_scope ∈ vals ∧
  PyVal.s r.prelim_broad_ability ∈ vals ∧ PyVal.s r.prelim_generative_cap ∈ vals ∧
  PyVal.s r.obligation_tech_doc ∈ vals ∧ PyVal.s r.obligation_instructions ∈ vals ∧
  PyVal.s r.obligation_copyright ∈ vals ∧ PyVal.s r.obligation_data_summary ∈ vals ∧
  PyVal.s r.sys_flop_threshold ∈ vals ∧ PyVal.s r.sys_sota_advancement ∈ vals ∧
  PyVal.s r.sys_mass_deployment ∈ vals ∧ PyVal.s r.sys_harmful_scaffolding ∈ vals ∧
  PyVal.s r.model_name ∈ vals ∧ PyVal.s r.provider_name ∈ vals ∧
  PyVal.s r.provider_context_justification ∈ vals ∧
  (remediation_collected status = true → PyVal.s r.user_remediation ∈ vals)

/-! ## Lemmas: the CSV reader inverts the writer -/

theorem strMk_data (s : String) : String.mk s.data = s := by
  cases s
  rfl

/-- `parseRaw` stops immediately at a delimiter, a line break, or the end
of input. -/
theorem parseRaw_sep (rest : List Char)
    (h : rest = [] ∨ rest.head? = some ',' ∨ rest.head? = some '\n') :
    parseRaw rest = ([], rest) := by
  cases rest with
  | nil => rfl
  | cons c r =>
    rcases h with h | h | h
    · exact absurd h (by simp)
    · simp only [List.head?] at h
      injection h with h
      simp [parseRaw, h]
    · simp only [List.head?] at h
      injection h with h
      simp [parseRaw, h]

/-- `parseRaw` reads a special-character-free prefix whole, stopping at the
delimiter or line break that follows it. -/
theorem parseRaw_enc (l rest : List Char)
    (hl : l.any isSpecial = false)
    (h : rest = [] ∨ rest.head? = some ',' ∨ rest.head? = some '\n') :
    parseRaw (l ++ rest) = (l, rest) := by
  induction l with
  | nil => simpa using parseRaw_sep rest h
  | cons c l ih =>
    simp only [List.any_cons, Bool.or_eq_false_iff] at hl
    have hc : ¬(c = ',' ∨ c = '\n') := by
      intro hor
      rcases hor with h1 | h1 <;> simp [isSpecial, h1] at hl
    simp [parseRaw, hc, ih hl.2]

/-- `scanQuoted` on an ordinary character keeps it and scans on. -/
theorem scanQuoted_cons_ne (c : Char) (rest : List Char) (hc : ¬c = '"') :
    scanQuoted (c :: rest) = ((c :: (scanQuoted rest).1, (scanQuoted rest).2)) := by
  rw [scanQuoted.eq_def]
  dsimp only
  rw [if_neg hc]

/-- `scanQuoted` undoes quote doubling and stops at the closing quote,
provided what follows the closing quote is not another quote. -/
theorem scanQuoted_esc (l rest : List Char)
    (h : rest.head? ≠ some '"') :
    scanQuoted (escQuotes l ++ ('"' :: rest)) = (l, rest) := by
  induction l with
  | nil =>
    cases rest with
    | nil => rfl
    | cons c2 r2 =>
      have hc2 : ¬(c2 = '"') := by
        intro hh
        exact h (by simp [hh])
      simp [escQuotes, scanQuoted, hc2]
  | cons c l ih =>
    by_cases hc : c = '"'
    · subst hc
      simp [escQuotes, scanQuoted, ih]
    · have he : escQuotes (c :: l) = c :: escQuotes l := by
        simp [escQuotes, hc]
      rw [he, List.cons_append, scanQuoted_cons_ne c _ hc, ih]

/-- `parseField` reads back exactly the field the writer rendered, leaving
the delimiter or line break in place. -/
theorem parseField_enc (s : String) (rest : List Char)
    (h : rest = [] ∨ rest.head? = some ',' ∨ rest.head? = some '\n') :
    parseField (encField s ++ rest) = (s.data, rest) := by
  by_cases hq : s.data.any isSpecial
  · have hrest : rest.head? ≠ some '"' := by
      rcases h with h1 | h1 | h1 <;> simp [h1]
    simp only [encField, hq, if_pos, List.cons_append, List.append_assoc,
      List.singleton_append]
    simpa [parseField] using scanQuoted_esc s.data rest hrest
  · have hq' : s.data.any isSpecial = false := by simpa using hq
    rw [encField, if_neg (by simp [hq'])]
    cases hd : s.data with
    | nil =>
      rcases h with h1 | h1 | h1
      · subst h1; rfl
      · cases rest with
        | nil => simp at h1
        | cons c r =>
          simp only [List.head?] at h1
          injection h1 with h1
          subst h1
          simpa [parseField, hd] using parseRaw_sep _ (by simp)
      · cases rest with
        | nil => simp at h1
        | cons c r =>
          simp only [List.head?] at h1
          injection h1 with h1
          subst h1
          simpa [parseField, hd] using parseRaw_sep _ (by simp)
    | cons c l =>
      have hcq : ¬(c = '"') := by
        intro hh
        rw [hd] at hq'
        simp [List.any_cons, hh, isSpecial] at hq'
      rw [hd] at hq'
      simpa [parseField, hcq, hd] using parseRaw_enc (c :: l) rest hq' h

/-- One writer row followed by a line break parses back to its fields, with
any fuel at least the number of fields. -/
theorem parseRowAux_encRow :
    ∀ (fs : List String) (rest : List Char) (fuel : Nat),
      fs ≠ [] → fs.length ≤ fuel →
      parseRowAux fuel (encRow fs ++ '\n' :: rest) = (fs, rest) := by
  intro fs
  induction fs with
  | nil => intro rest fuel h _; exact absurd rfl h
  | cons s fs ih =>
    intro rest fuel _ hf
    simp only [List.length_cons] at hf
    obtain ⟨f, rfl⟩ : ∃ f, fuel = f + 1 := ⟨fuel - 1, by omega⟩
    cases fs with
    | nil =>
      have hp := parseField_enc s ('\n' :: rest) (by simp)
      simp [encRow, joinSep, parseRowAux, hp, strMk_data]
    | cons t fs' =>
      have hrow : encRow (s :: t :: fs') = encField s ++ ',' :: encRow (t :: fs') := by
        simp [encRow, joinSep]
      have hp := parseField_enc s (',' :: (encRow (t :: fs') ++ '\n' :: rest)) (by simp)
      have hlen : (t :: fs').length ≤ f := by
        simp only [List.length_cons] at hf ⊢
        omega
      have := ih rest f (by simp) hlen
      simp [hrow, parseRowAux, hp, strMk_data, this]

theorem parseRowsAux_nil (fuel : Nat) : parseRowsAux fuel [] = [] := by
  cases fuel <;> rfl

theorem parseRowsAux_step (fuel : Nat) (cs : List Char) (h : cs ≠ []) :
    parseRowsAux (fuel + 1) cs = (parseRow cs).1 :: parseRowsAux fuel (parseRow cs).2 := by
  cases cs with
  | nil => exact absurd rfl h
  | cons c cs => rfl

/-- A writer row is at least one character shorter than the field count
would require: `n` fields need at least `n - 1` delimiters. -/
theorem encRow_length (fs : List String) : fs.length ≤ (encRow fs).length + 1 := by
  induction fs with
  | nil => simp [encRow, joinSep]
  | cons s fs ih =>
    cases fs with
    | nil => simp [encRow, joinSep]
    | cons t fs' =>
      have hrow : encRow (s :: t :: fs') = encField s ++ ',' :: encRow (t :: fs') := by
        simp [encRow, joinSep]
      simp only [hrow, List.length_cons, List.length_append] at ih ⊢
      omega

/-- The reader recovers the two rows the writer laid out. -/
theorem parseCSV_enc (ks vs : List String) (hk : ks ≠ []) (hv : vs ≠ []) :
    parseCSV (String.mk (encRow ks ++ '\n' :: (encRow vs ++ ['\n']))) = [ks, vs] := by
  have hlen : (encRow ks ++ '\n' :: (encRow vs ++ ['\n'])).length =
      ((encRow ks).length + (encRow vs).length + 1) + 1 := by
    simp
    omega
  have hne1 : encRow ks ++ '\n' :: (encRow vs ++ ['\n']) ≠ [] := by
    cases h : encRow ks <;> simp [h]
  have hrow1 : parseRow (encRow ks ++ '\n' :: (encRow vs ++ ['\n'])) =
      (ks, encRow vs ++ ['\n']) := by
    rw [parseRow]
    refine parseRowAux_encRow ks (encRow vs ++ ['\n']) _ hk ?_
    have h1 := encRow_length ks
    simp only [hlen]
    omega
  have hne2 : encRow vs ++ ['\n'] ≠ [] := by
    cases h : encRow vs <;> simp [h]
  have hrow2 : parseRow (encRow vs ++ ['\n']) = (vs, []) := by
    rw [parseRow]
    have h2 := encRow_length vs
    have : encRow vs ++ ['\n'] = encRow vs ++ '\n' :: ([] : List Char) := by simp
    rw [this]
    refine parseRowAux_encRow vs [] _ hv ?_
    simp
    omega
  rw [parseCSV]
  show parseRowsAux (String.mk (encRow ks ++ '\n' :: (encRow vs ++ ['\n']))).data.length
    (encRow ks ++ '\n' :: (encRow vs ++ ['\n'])) = [ks, vs]
  have hdata : (String.mk (encRow ks ++ '\n' :: (encRow vs ++ ['\n']))).data =
      encRow ks ++ '\n' :: (encRow vs ++ ['\n']) := rfl
  rw [hdata, hlen, parseRowsAux_step _ _ hne1, hrow1]
  have hlen2 : (encRow ks).length + (encRow vs).length + 1 =
      ((encRow ks).length + (encRow vs).length) + 1 := rfl
  rw [hlen2, parseRowsAux_step _ _ hne2, hrow2]
  simp [parseRowsAux_nil]

/-! ## Lemmas: the score maps on their declared options -/

theorem param_scale_mem (s : String) (h : s ∈ param_scale_options) :
    ∃ a : Nat, param_scale_score_map s = some a ∧ a ≤ 2 := by
  simp only [param_scale_options, List.mem_cons, List.not_mem_nil, or_false] at h
  rcases h with h | h | h <;> subst h
  · exact ⟨0, by decide, by decide⟩
  · exact ⟨1, by decide, by decide⟩
  · exact ⟨2, by decide, by decide⟩

theorem yes_partly_no_mem (s : String) (h : s ∈ no_partly_yes_options) :
    ∃ a : Nat, yes_partly_no_map s = some a ∧ a ≤ 2 := by
  simp only [no_partly_yes_options, List.mem_cons, List.not_mem_nil, or_false] at h
  rcases h with h | h | h <;> subst h
  · exact ⟨0, by decide, by decide⟩
  · exact ⟨1, by decide, by decide⟩
  · exact ⟨2, by decide, by decide⟩

/-! ## The claims -/

/-- C5: for every response set whose specialization-gate answer is
affirmative, the run ends at the terminal Out-of-Scope outcome — no
score is computed and no report field is populated — regardless of all
other answers. -/
theorem c5_specialized_terminates (r : Responses)
    (h : r.specialized_radio = "Yes (Specialized/Narrow)") :
    runApp r = some Outcome.outOfScope := by
  simp [runApp, h]

theorem c5_specialized_terminates_witness :
    runApp { sample with specialized_radio := "Yes (Specialized/Narrow)" } =
      some Outcome.outOfScope :=
  c5_specialized_terminates _ rfl

/-- C6: past the specialization gate, a third-party model with all four
substantial-modification answers "No" gives `substantial_mod = false` and
the terminal Not-Provider outcome; any "Yes" gives `substantial_mod = true`
and the run continues with Step 3; an internally developed model skips the
sub-questions (the outcome is Step 3's, whatever the four answers are). -/
theorem c6_provider_gate (r : Responses)
    (hs : r.specialized_radio = "No (Potentially General-Purpose)") :
    (r.developed_internally = "Third Party" →
      ((r.mod_param_change = "No" ∧ r.mod_purpose_change = "No" ∧
        r.mod_data_change = "No" ∧ r.mod_integration_change = "No") →
        substantial_mod r = false ∧ runApp r = some Outcome.notProvider) ∧
      ((r.mod_param_change = "Yes" ∨ r.mod_purpose_change = "Yes" ∨
        r.mod_data_change = "Yes" ∨ r.mod_integration_change = "Yes") →
        substantial_mod r = true ∧ runApp r = run_step3_onward r)) ∧
    (r.developed_internally = "Internally Developed" →
      runApp r = run_step3_onward r ∧
      ∀ a b c d : String,
        runApp { r with
            mod_param_change := a, mod_purpose_change := b,
            mod_data_change := c, mod_integration_change := d } =
          run_step3_onward r) := by
  have hns : ¬(r.specialized_radio = "Yes (Specialized/Narrow)") := by
    rw [hs]
    decide
  constructor
  · intro h3
    constructor
    · rintro ⟨h1, h2, h4, h5⟩
      have hsm : substantial_mod r = false := by
        simp [substantial_mod, h1, h2, h4, h5]
      exact ⟨hsm, by simp [runApp, hns, run_step2_onward, h3, hsm]⟩
    · intro hor
      have hsm : substantial_mod r = true := by
        rcases hor with h | h | h | h <;> simp [substantial_mod, h]
      exact ⟨hsm, by simp [runApp, hns, run_step2_onward, hsm]⟩
  · intro hint
    have hnt : ¬(r.developed_internally = "Third Party") := by
      rw [hint]
      decide
    refine ⟨by simp [runApp, hns, run_step2_onward, hnt], fun a b c d => ?_⟩
    have hstep : run_step3_onward { r with
        mod_param_change := a, mod_purpose_change := b,
        mod_data_change := c, mod_integration_change := d } = run_step3_onward r := rfl
    simp [runApp, hns, run_step2_onward, hnt, hstep]

theorem c6_provider_gate_witness :
    (sample.developed_internally = "Third Party" →
      ((sample.mod_param_change = "No" ∧ sample.mod_purpose_change = "No" ∧
        sample.mod_data_change = "No" ∧ sample.mod_integration_change = "No") →
        substantial_mod sample = false ∧ runApp sample = some Outcome.notProvider) ∧
      ((sample.mod_param_change = "Yes" ∨ sample.mod_purpose_change = "Yes" ∨
        sample.mod_data_change = "Yes" ∨ sample.mod_integration_change = "Yes") →
        substantial_mod sample = true ∧ runApp sample = run_step3_onward sample)) ∧
    (sample.developed_internally = "Internally Developed" →
      runApp sample = run_step3_onward sample ∧
      ∀ a b c d : String,
        runApp { sample with
            mod_param_change := a, mod_purpose_change := b,
            mod_data_change := c, mod_integration_change := d } =
          run_step3_onward sample) :=
  c6_provider_gate sample rfl

/-- C7: on a run that reaches Step 3 (specialization gate passed, provider
gate passed), the preliminary score is the sum of the four mapped point
values; below 3 the run ends at the terminal Below-Threshold outcome
whatever the later answers are, and from 3 on it continues with Step 4. -/
theorem c7_preliminary_gate (r : Responses)
    (hs : r.specialized_radio = "No (Potentially General-Purpose)")
    (hp : r.developed_internally = "Internally Developed" ∨ substantial_mod r = true)
    (ha : r.prelim_param_scale ∈ param_scale_options)
    (hb : r.prelim_training_scope ∈ no_partly_yes_options)
    (hc : r.prelim_broad_ability ∈ no_partly_yes_options)
    (hd : r.prelim_generative_cap ∈ no_partly_yes_options) :
    ∃ a b c d : Nat,
      param_scale_score_map r.prelim_param_scale = some a ∧
      yes_partly_no_map r.prelim_training_scope = some b ∧
      yes_partly_no_map r.prelim_broad_ability = some c ∧
      yes_partly_no_map r.prelim_generative_cap = some d ∧
      prelim_score r = some (a + b + c + d) ∧
      (a + b + c + d < 3 → runApp r = some Outcome.belowThreshold) ∧
      (3 ≤ a + b + c + d → runApp r = run_step4_onward r (a + b + c + d)) := by
  have hns : ¬(r.specialized_radio = "Yes (Specialized/Narrow)") := by
    rw [hs]
    decide
  have hgate : ¬(r.developed_internally = "Third Party" ∧ substantial_mod r = false) := by
    rintro ⟨h1, h2⟩
    rcases hp with h | h
    · rw [h] at h1
      exact absurd h1 (by decide)
    · rw [h] at h2
      exact absurd h2 (by decide)
  obtain ⟨a, hma, _⟩ := param_scale_mem _ ha
  obtain ⟨b, hmb, _⟩ := yes_partly_no_mem _ hb
  obtain ⟨c, hmc, _⟩ := yes_partly_no_mem _ hc
  obtain ⟨d, hmd, _⟩ := yes_partly_no_mem _ hd
  have hscore : prelim_score r = some (a + b + c + d) := by
    simp [prelim_score, hma, hmb, hmc, hmd]
  refine ⟨a, b, c, d, hma, hmb, hmc, hmd, hscore, fun hlt => ?_, fun hge => ?_⟩
  · simp [runApp, hns, run_step2_onward, hgate, run_step3_onward, hscore, hlt]
  · have hnlt : ¬(a + b + c + d < 3) := by omega
    simp [runApp, hns, run_step2_onward, hgate, run_step3_onward, hscore, hnlt]

theorem c7_preliminary_gate_witness :
    ∃ a b c d : Nat,
      param_scale_score_map sample.prelim_param_scale = some a ∧
      yes_partly_no_map sample.prelim_training_scope = some b ∧
      yes_partly_no_map sample.prelim_broad_ability = some c ∧
      yes_partly_no_map sample.prelim_generative_cap = some d ∧
      prelim_score sample = some (a + b + c + d) ∧
      (a + b + c + d < 3 → runApp sample = some Outcome.belowThreshold) ∧
      (3 ≤ a + b + c + d → runApp sample = run_step4_onward sample (a + b + c + d)) :=
  c7_preliminary_gate sample rfl (Or.inl rfl) (by decide) (by decide) (by decide) (by decide)

/-- C1: the claim says the textual extraction of the numeric value from a
selected option label always succeeds and `baseline_score` is the sum of
the four values.  In fact the parse succeeds only on the parenthesized
tech-doc labels; every declared option of the instructions, copyright and
data-summary questions makes `int()` raise, so any run that reaches Step 4
aborts and `baseline_score` is never produced. -/
theorem c1_label_parse_crashes :
    (extract_numeric "Not in place (0)" = some 0 ∧
     extract_numeric "Partially in place (1)" = some 1 ∧
     extract_numeric "Fully in place (2)" = some 2) ∧
    (∀ s ∈ instructions_options, extract_numeric s = none) ∧
    (∀ s ∈ copyright_options, extract_numeric s = none) ∧
    (∀ s ∈ data_summary_options, extract_numeric s = none) ∧
    (∀ r : Responses, r.obligation_instructions ∈ instructions_options →
      baseline_score r = none) := by
  refine ⟨by decide, by decide, by decide, by decide, fun r h => ?_⟩
  have hx : extract_numeric r.obligation_instructions = none := by
    simp only [instructions_options, List.mem_cons, List.not_mem_nil, or_false] at h
    rcases h with h | h | h <;> rw [h] <;> decide
  cases h1 : extract_numeric r.obligation_tech_doc <;>
    simp [baseline_score, h1, hx]

/-- C2: whenever Step 5 computes a systemic score, that score is the count
of affirmative answers, and the classification follows the three-branch
order-sensitive rule: flop-threshold or state-of-the-art "Yes" classifies
"Yes" with no override question; otherwise a score above 1 presents the
override question whose answer alone decides; otherwise "No". -/
theorem c2_systemic_rule (r : Responses) (n : Nat)
    (h1 : r.sys_flop_threshold ∈ yes_no_options)
    (h2 : r.sys_sota_advancement ∈ yes_no_options)
    (h3 : r.sys_mass_deployment ∈ yes_no_options)
    (h4 : r.sys_harmful_scaffolding ∈ yes_no_options)
    (hn : systemic_score r = some n) :
    n = [r.sys_flop_threshold, r.sys_sota_advancement, r.sys_mass_deployment,
      r.sys_harmful_scaffolding].count "Yes" ∧
    ((r.sys_flop_threshold = "Yes" ∨ r.sys_sota_advancement = "Yes") →
      systemic_classification r = some "Yes" ∧
      manual_override_presented r = some false) ∧
    (¬(r.sys_flop_threshold = "Yes" ∨ r.sys_sota_advancement = "Yes") → 1 < n →
      manual_override_presented r = some true ∧
      systemic_classification r =
        some (if r.borderline_sysrisk = "Yes - High Impact/Systemic"
          then "Yes" else "No")) ∧
    (¬(r.sys_flop_threshold = "Yes" ∨ r.sys_sota_advancement = "Yes") → n ≤ 1 →
      systemic_classification r = some "No" ∧
      manual_override_presented r = some false) := by
  simp only [yes_no_options, List.mem_cons, List.not_mem_nil, or_false] at h1 h2 h3 h4
  rcases h1 with h1 | h1 <;> rcases h2 with h2 | h2 <;>
    rcases h3 with h3 | h3 <;> rcases h4 with h4 | h4 <;>
    · simp [systemic_score, yes_no_map, h1, h2, h3, h4] at hn
      subst hn
      refine ⟨by simp [h1, h2, h3, h4], ?_, ?_, ?_⟩ <;>
        · intros
          simp_all [systemic_classification, manual_override_presented,
            systemic_score, yes_no_map, h1, h2, h3, h4]

theorem c2_systemic_rule_witness :
    1 = [sample.sys_flop_threshold, sample.sys_sota_advancement,
      sample.sys_mass_deployment, sample.sys_harmful_scaffolding].count "Yes" ∧
    ((sample.sys_flop_threshold = "Yes" ∨ sample.sys_sota_advancement = "Yes") →
      systemic_classification sample = some "Yes" ∧
      manual_override_presented sample = some false) ∧
    (¬(sample.sys_flop_threshold = "Yes" ∨ sample.sys_sota_advancement = "Yes") →
      1 < 1 →
      manual_override_presented sample = some true ∧
      systemic_classification sample =
        some (if sample.borderline_sysrisk = "Yes - High Impact/Systemic"
          then "Yes" else "No")) ∧
    (¬(sample.sys_flop_threshold = "Yes" ∨ sample.sys_sota_advancement = "Yes") →
      1 ≤ 1 →
      systemic_classification sample = some "No" ∧
      manual_override_presented sample = some false) :=
  c2_systemic_rule sample 1 (by decide) (by decide) (by decide) (by decide) (by decide)

/-- C8: the aggregation step adds the preliminary and baseline scores and
maps the total to the three compliance outcomes at the thresholds 12 and 8,
with the two concrete cases 8+8 compliant and 3+0 non-compliant. -/
theorem c8_aggregation :
    (∀ (p : Nat) (b : Int), overall_score p b = (p : Int) + b) ∧
    (∀ o : Int, 12 ≤ o → compliance_status o = compliant_str) ∧
    (∀ o : Int, 8 ≤ o → o < 12 → compliance_status o = provisional_str) ∧
    (∀ o : Int, o < 8 → compliance_status o = noncompliant_str) ∧
    compliant_str ≠ provisional_str ∧ provisional_str ≠ noncompliant_str ∧
    compliant_str ≠ noncompliant_str ∧
    compliance_status (overall_score 8 8) = compliant_str ∧
    compliance_status (overall_score 3 0) = noncompliant_str := by
  refine ⟨fun p b => rfl, fun o h => by simp [compliance_status, h],
    fun o h8 h12 => ?_, fun o h => ?_, by decide, by decide, by decide,
    by decide, by decide⟩
  · have h1 : ¬(12 ≤ o) := by omega
    simp [compliance_status, h1, h8]
  · have h1 : ¬(12 ≤ o) := by omega
    have h2 : ¬(8 ≤ o) := by omega
    simp [compliance_status, h1, h2]

/-- C9: the claim says all three tallies stay in range over every run.
The preliminary score indeed stays in [0,8] over the declared options, but
`baseline_score` (and hence `overall_score`) is never produced for any
declared selection: the Step 4 label parse fails on every copyright option
(see C1), so the run aborts instead of yielding a value in [0,8]. -/
theorem c9_score_ranges :
    (∀ r : Responses, r.prelim_param_scale ∈ param_scale_options →
      r.prelim_training_scope ∈ no_partly_yes_options →
      r.prelim_broad_ability ∈ no_partly_yes_options →
      r.prelim_generative_cap ∈ no_partly_yes_options →
      ∃ p : Nat, prelim_score r = some p ∧ p ≤ 8) ∧
    (∀ r : Responses, r.obligation_copyright ∈ copyright_options →
      baseline_score r = none) := by
  constructor
  · intro r ha hb hc hd
    obtain ⟨a, hma, ha2⟩ := param_scale_mem _ ha
    obtain ⟨b, hmb, hb2⟩ := yes_partly_no_mem _ hb
    obtain ⟨c, hmc, hc2⟩ := yes_partly_no_mem _ hc
    obtain ⟨d, hmd, hd2⟩ := yes_partly_no_mem _ hd
    exact ⟨a + b + c + d, by simp [prelim_score, hma, hmb, hmc, hmd], by omega⟩
  · intro r h
    have hx : extract_numeric r.obligation_copyright = none := by
      simp only [copyright_options, List.mem_cons, List.not_mem_nil, or_false] at h
      rcases h with h | h | h <;> rw [h] <;> decide
    cases h1 : extract_numeric r.obligation_tech_doc <;>
      cases h2 : extract_numeric r.obligation_instructions <;>
      simp [baseline_score, h1, h2, hx]

/-- C10: noninterference.  Two response sets agreeing on the four
preliminary and four baseline answers get the same overall score and
compliance status, whatever their systemic answers, override answer and
free text; and the systemic classification depends only on the four
systemic answers and the override answer, not on any score. -/
theorem c10_noninterference (r1 r2 : Responses)
    (ha : r1.prelim_param_scale = r2.prelim_param_scale)
    (hb : r1.prelim_training_scope = r2.prelim_training_scope)
    (hc : r1.prelim_broad_ability = r2.prelim_broad_ability)
    (hd : r1.prelim_generative_cap = r2.prelim_generative_cap)
    (he : r1.obligation_tech_doc = r2.obligation_tech_doc)
    (hf : r1.obligation_instructions = r2.obligation_instructions)
    (hg : r1.obligation_copyright = r2.obligation_copyright)
    (hh : r1.obligation_data_summary = r2.obligation_data_summary) :
    aggregate r1 = aggregate r2 ∧
    (∀ s1 s2 : Responses, s1.sys_flop_threshold = s2.sys_flop_threshold →
      s1.sys_sota_advancement = s2.sys_sota_advancement →
      s1.sys_mass_deployment = s2.sys_mass_deployment →
      s1.sys_harmful_scaffolding = s2.sys_harmful_scaffolding →
      s1.borderline_sysrisk = s2.borderline_sysrisk →
      systemic_classification s1 = systemic_classification s2 ∧
      manual_override_presented s1 = manual_override_presented s2) := by
  constructor
  · simp [aggregate, prelim_score, baseline_score, ha, hb, hc, hd, he, hf, hg, hh]
  · intro s1 s2 e1 e2 e3 e4 e5
    constructor
    · simp [systemic_classification, systemic_score, e1, e2, e3, e4, e5]
    · simp [manual_override_presented, systemic_score, e1, e2, e3, e4]

theorem c10_noninterference_witness :
    aggregate sample = aggregate sample ∧
    (∀ s1 s2 : Responses, s1.sys_flop_threshold = s2.sys_flop_threshold →
      s1.sys_sota_advancement = s2.sys_sota_advancement →
      s1.sys_mass_deployment = s2.sys_mass_deployment →
      s1.sys_harmful_scaffolding = s2.sys_harmful_scaffolding →
      s1.borderline_sysrisk = s2.borderline_sysrisk →
      systemic_classification s1 = systemic_classification s2 ∧
      manual_override_presented s1 = manual_override_presented s2) :=
  c10_noninterference sample sample rfl rfl rfl rfl rfl rfl rfl rfl

/-- C3 counterexample: a coherent Step 6 state (preliminary score 8,
systemic score 1, classification "No", compliant status) whose assembled
report does not satisfy the spec's completeness requirement: the systemic
score tally, the overall score tally and the provider-gate answer are
absent from the report's values (a baseline score of 7 stands in for the
labels' embedded sum, which the code never actually produces, see C1). -/
theorem c3_report_incomplete :
    prelim_score sample = some 8 ∧ systemic_score sample = some 1 ∧
    systemic_classification sample = some "No" ∧
    compliance_status (overall_score 8 7) = compliant_str ∧
    ¬ spec_report_complete sample 8 7 1 "No" compliant_str := by
  refine ⟨by decide, by decide, by decide, by decide, ?_⟩
  unfold spec_report_complete
  dsimp only
  intro h
  exact absurd h.2.2.2.2.2.2.2.2.1 (by decide)

/-- C3 as amended: the assembled report holds exactly these 21 fields —
provider type, context justification, the specialization answer, the
preliminary and baseline scores, the systemic classification, the
compliance status, the four Step 3, four Step 4 and four Step 5 answers,
and the model and provider names.  It omits the systemic and overall
score tallies, the provider-gate answer, the four substantial-modification
answers, the manual-override answer and the remediation narrative. -/
theorem c3_report_fields (r : Responses) (p : Nat) (b : Int)
    (sysClass status : String) :
    (report_data r p b sysClass status).map Prod.fst =
      ["Provider Type (Recital 109)", "Provider Justification",
       "Specialized Model Step1", "Preliminary Score", "Baseline Score",
       "Systemic Risk? (Article 51)", "Overall Compliance Status",
       "Step3_param_scale", "Step3_training_scope", "Step3_broad_ability",
       "Step3_generative_cap", "Step4_tech_doc", "Step4_instructions",
       "Step4_copyright", "Step4_data_summary", "Step5_flop_threshold",
       "Step5_sota_advancement", "Step5_mass_deployment",
       "Step5_harmful_scaffolding", "Model Name", "Provider Name"] ∧
    ("Provider Type (Recital 109)", PyVal.s r.provider_type)
      ∈ report_data r p b sysClass status ∧
    ("Provider Justification", PyVal.s r.provider_context_justification)
      ∈ report_data r p b sysClass status ∧
    ("Specialized Model Step1", PyVal.s r.specialized_radio)
      ∈ report_data r p b sysClass status ∧
    ("Preliminary Score", PyVal.i (p : Int)) ∈ report_data r p b sysClass status ∧
    ("Baseline Score", PyVal.i b) ∈ report_data r p b sysClass status ∧
    ("Systemic Risk? (Article 51)", PyVal.s sysClass)
      ∈ report_data r p b sysClass status ∧
    ("Overall Compliance Status", PyVal.s status)
      ∈ report_data r p b sysClass status ∧
    ("Step3_param_scale", PyVal.s r.prelim_param_scale)
      ∈ report_data r p b sysClass status ∧
    ("Step3_training_scope", PyVal.s r.prelim_training_scope)
      ∈ report_data r p b sysClass status ∧
    ("Step3_broad_ability", PyVal.s r.prelim_broad_ability)
      ∈ report_data r p b sysClass status ∧
    ("Step3_generative_cap", PyVal.s r.prelim_generative_cap)
      ∈ report_data r p b sysClass status ∧
    ("Step4_tech_doc", PyVal.s r.obligation_tech_doc)
      ∈ report_data r p b sysClass status ∧
    ("Step4_instructions", PyVal.s r.obligation_instructions)
      ∈ report_data r p b sysClass status ∧
    ("Step4_copyright", PyVal.s r.obligation_copyright)
      ∈ report_data r p b sysClass status ∧
    ("Step4_data_summary", PyVal.s r.obligation_data_summary)
      ∈ report_data r p b sysClass status ∧
    ("Step5_flop_threshold", PyVal.s r.sys_flop_threshold)
      ∈ report_data r p b sysClass status ∧
    ("Step5_sota_advancement", PyVal.s r.sys_sota_advancement)
      ∈ report_data r p b sysClass status ∧
    ("Step5_mass_deployment", PyVal.s r.sys_mass_deployment)
      ∈ report_data r p b sysClass status ∧
    ("Step5_harmful_scaffolding", PyVal.s r.sys_harmful_scaffolding)
      ∈ report_data r p b sysClass status ∧
    ("Model Name", PyVal.s r.model_name) ∈ report_data r p b sysClass status ∧
    ("Provider Name", PyVal.s r.provider_name) ∈ report_data r p b sysClass status := by
  refine ⟨rfl, ?_, ?_, ?_, ?_, ?_, ?_, ?_, ?_, ?_, ?_, ?_, ?_, ?_, ?_, ?_,
    ?_, ?_, ?_, ?_, ?_, ?_⟩ <;> simp [report_data]

/-- C4: round-trip of the export step.  Parsing the CSV text produced for
a report yields exactly two rows: the report's keys in order, and the
report's values (ints rendered by `str`) in order — so every field placed
into the report appears, with the same value, in the exported output. -/
theorem c4_export_roundtrip (r : Responses) (p : Nat) (b : Int)
    (sysClass status : String) :
    parseCSV (export_csv (report_data r p b sysClass status)) =
      [(report_data r p b sysClass status).map Prod.fst,
       (report_data r p b sysClass status).map (fun kv => pyValStr kv.2)] := by
  have h := parseCSV_enc ((report_data r p b sysClass status).map Prod.fst)
    ((report_data r p b sysClass status).map (fun kv => pyValStr kv.2))
    (by simp [report_data]) (by simp [report_data])
  simpa [export_csv] using h

end GPAI
